import Mathlib

/-!
Shallow embedding of `tbviewer/mapfile.py` (OziExplorer `.map` codec and
calibration engine) and proofs about it.

Modelling conventions:
* Python floats are modelled as exact rationals (`ℚ`); Python ints as `ℤ`.
* Fallible Python code (exceptions) is modelled in the `Except PyError` monad.
  Distinct error constructors record which kind of Python exception a given
  `raise` site produces (the module's `InvalidFileException` sites are split
  by their message, mirroring the spec's error taxonomy).
* Python `str.strip` is modelled by trimming `Char.isWhitespace` characters
  (same behaviour on the space/tab/CR/LF whitespace of `.map` files).
* `int(...)`/`float(...)` literal parsing is modelled for the decimal forms
  that occur in `.map` files (optional surrounding whitespace, optional sign,
  digits with an optional fractional part); exponent/underscore/inf/nan forms
  are not modelled.
-/

namespace Tbviewer

/-- Kinds of Python exception the module can raise.  The four
`InvalidFileException` raise sites of the source are distinguished by their
message: `badHeader` (wrong first line), `badFieldCount` (an MMPXY/MMPLL line
without exactly 4 comma fields), `badField` (a non-numeric MMPXY/MMPLL field),
`invalidFile` (the bare `InvalidFileException()` for an out-of-order MMPXY
corner).  `nameError` models `raise Error()` (the name `Error` is undefined in
the module), and the rest model the corresponding Python builtins. -/
inductive PyError
  | badHeader
  | badFieldCount
  | badField
  | invalidFile
  | valueError
  | typeError
  | indexError
  | nameError
  | zeroDivisionError
deriving DecidableEq, Repr

/-! ### Python string primitives

These are structural-recursion models of the Python `str` operations the
module uses (`split`, `strip`, `startswith`, slicing), stated over the
character list of the string.  The `.map` format is ASCII, so character and
byte positions agree. -/

/-- Python `s.split(sep)` for a single-character separator: splitting the
empty string yields `[""]`, and separators are not grouped. -/
def splitOnChar (sep : Char) : List Char → List (List Char)
  | [] => [[]]
  | c :: rest =>
    match splitOnChar sep rest with
    | [] => [[]]
    | grp :: gs => if c = sep then [] :: grp :: gs else (c :: grp) :: gs

/-- Python `s.split(sep)` returning strings. -/
def pySplit (s : String) (sep : Char) : List String :=
  (splitOnChar sep s.toList).map String.mk

/-- Python `s.strip()`: drop leading and trailing whitespace. -/
def pyStrip (s : String) : String :=
  String.mk (((s.toList.dropWhile Char.isWhitespace).reverse.dropWhile
    Char.isWhitespace).reverse)

/-- Python `s.startswith(pre)`. -/
def pyStartsWith (s pre : String) : Bool :=
  pre.toList.isPrefixOf s.toList

/-- Python `s[n:]` (character slicing; beyond-the-end slices are empty). -/
def pyDropStr (s : String) (n : ℕ) : String :=
  String.mk (s.toList.drop n)

/-- Join lines with newline separators (Python `"\n".join(...)`). -/
def joinNL : List String → String
  | [] => ""
  | [s] => s
  | s :: rest => s ++ "\n" ++ joinNL rest

/-- Numeric value of an ASCII digit. -/
def digitVal (c : Char) : ℕ := c.toNat - 48

/-- Value of a nonempty all-digit character list, `none` otherwise. -/
def decimalDigits? (s : List Char) : Option ℕ :=
  if s ≠ [] ∧ s.all Char.isDigit then
    some (s.foldl (fun n c => 10 * n + digitVal c) 0)
  else none

/-- Value of a possibly-empty all-digit character list (empty reads as 0). -/
def natOfDigits (s : List Char) : ℕ :=
  s.foldl (fun n c => 10 * n + digitVal c) 0

/-- Python `int(str)`: optional surrounding whitespace, optional sign, decimal
digits.  Returns `none` where Python raises `ValueError`. -/
def pyIntCore (s : String) : Option ℤ :=
  match (pyStrip s).toList with
  | '-' :: rest => (decimalDigits? rest).map (fun n => -(n : ℤ))
  | '+' :: rest => (decimalDigits? rest).map (fun n => (n : ℤ))
  | other => (decimalDigits? other).map (fun n => (n : ℤ))

/-- Python `float(str)` for finite decimal literals: optional surrounding
whitespace, optional sign, digits with an optional fractional part ("12",
"12.", ".5", "1.25").  Returns `none` where Python raises `ValueError`. -/
def pyFloatCore (s : String) : Option ℚ :=
  let signBody : ℚ × List Char :=
    match (pyStrip s).toList with
    | '-' :: rest => (-1, rest)
    | '+' :: rest => (1, rest)
    | other => (1, other)
  let sign := signBody.1
  let body := signBody.2
  let ip := body.takeWhile (fun c => c ≠ '.')
  let rest := body.dropWhile (fun c => c ≠ '.')
  let mkVal (ip fp : List Char) : Option ℚ :=
    if (ip ≠ [] ∨ fp ≠ []) ∧ ip.all Char.isDigit ∧ fp.all Char.isDigit then
      some (sign * ((natOfDigits ip : ℚ) + (natOfDigits fp : ℚ) / (10 : ℚ) ^ fp.length))
    else none
  match rest with
  | [] => mkVal ip []
  | _ :: fp => mkVal ip fp

/-- `int(...)` as it appears in the source: an uncaught failure is a Python
`ValueError`. -/
def pyInt (s : String) : Except PyError ℤ :=
  match pyIntCore s with
  | some n => .ok n
  | none => .error .valueError

/-- `float(...)` as it appears in the source: an uncaught failure is a Python
`ValueError`. -/
def pyFloat (s : String) : Except PyError ℚ :=
  match pyFloatCore s with
  | some q => .ok q
  | none => .error .valueError

/-- Python list subscription `l[i]` (nonnegative index): raises `IndexError`
when out of range. -/
def pyAt {α : Type} (l : List α) (i : ℕ) : Except PyError α :=
  match l.get? i with
  | some a => .ok a
  | none => .error .indexError

/-- The `Point` class: a reference point with pixel coordinates and the
geographic coordinates the module stores under the (swapped, see
`_parse_point`) names `lat`/`lon`.  `idx` is `None` until assigned. -/
structure Point where
  idx : Option ℤ
  x : ℚ
  y : ℚ
  lat : ℚ
  lon : ℚ
deriving DecidableEq, Repr

/-- `degree2minsec(d, lz, gz)`: magnitude degrees, fractional minutes and the
hemisphere letter (`lz` for negative values, `gz` otherwise).  `int(d)` on the
(made nonnegative) value is a floor. -/
def degree2minsec (d : ℚ) (lz gz : String) : ℤ × ℚ × String :=
  if d < 0 then (⌊-d⌋, (-d - ⌊-d⌋) * 60, lz)
  else (⌊d⌋, (d - ⌊d⌋) * 60, gz)

/-- The `MapFile` record after `clear()`: all fields empty.  `parse_map`
starts from this state, so parsing is modelled as building a fresh record. -/
structure MapFile where
  filename : Option String := none
  img_filename : Option String := none
  img_filepath : Option String := none
  projection : Option String := none
  map_projection : Option String := none
  points : List Point := []
  mmpxy : List (ℤ × ℤ) := []
  mmpll : List (ℚ × ℚ) := []
  mmpnum : Option ℤ := none
  mm1b : Option ℚ := none
  image_width : Option ℤ := none
  image_height : Option ℤ := none
deriving DecidableEq, Repr

/-- `_parse_point(line)` (source lines 179-192).  Returns `none` (point
skipped) when field 2 strips to the empty string.  Note the source stores
`int(fields[9]) + float(fields[10])/60` as `lat` and
`int(fields[6]) + float(fields[7])/60` as `lon`, negates `lat` when
`fields[8] == 'E'` and negates `lon` when `fields[11] == 'S'`.  Effectful
field accesses and conversions appear in Python evaluation order. -/
def _parse_point (line : String) : Except PyError (Option Point) := do
  let fields := pySplit line ','
  let f2 ← pyAt fields 2
  if pyStrip f2 = "" then
    return none
  else
    let x ← pyInt f2
    let f3 ← pyAt fields 3
    let y ← pyInt f3
    let f9 ← pyAt fields 9
    let i9 ← pyInt f9
    let f10 ← pyAt fields 10
    let q10 ← pyFloat f10
    let f6 ← pyAt fields 6
    let i6 ← pyInt f6
    let f7 ← pyAt fields 7
    let q7 ← pyFloat f7
    let f0 ← pyAt fields 0
    let idx ← pyInt (pyDropStr f0 6)
    let f8 ← pyAt fields 8
    let f11 ← pyAt fields 11
    let lat0 : ℚ := (i9 : ℚ) + q10 / 60
    let lon0 : ℚ := (i6 : ℚ) + q7 / 60
    let lat := if f8 = "E" then -lat0 else lat0
    let lon := if f11 = "S" then -lon0 else lon0
    return some { idx := some idx, x := (x : ℚ), y := (y : ℚ), lat := lat, lon := lon }

/-- `_parse_mmpxy(line)`: 4 comma fields required (`badFieldCount`), then the
stripped id/x/y fields must be integers (failures are caught and re-raised as
`InvalidFileException`, modelled `badField`). -/
def _parse_mmpxy (line : String) : Except PyError (ℤ × ℤ × ℤ) := do
  let fields := pySplit line ','
  if fields.length ≠ 4 then
    .error .badFieldCount
  else
    let f := fields.map pyStrip
    let point_id ← (pyInt (f.getD 1 "")).mapError fun _ => PyError.badField
    let x ← (pyInt (f.getD 2 "")).mapError fun _ => PyError.badField
    let y ← (pyInt (f.getD 3 "")).mapError fun _ => PyError.badField
    return (point_id, x, y)

/-- `_parse_mmpll(line)`: 4 comma fields required, then id is an integer and
the third/fourth fields are floats, bound as `lon`/`lat` respectively (the
caller swaps them back, source line 97). -/
def _parse_mmpll (line : String) : Except PyError (ℤ × ℚ × ℚ) := do
  let fields := pySplit line ','
  if fields.length ≠ 4 then
    .error .badFieldCount
  else
    let f := fields.map pyStrip
    let point_id ← (pyInt (f.getD 1 "")).mapError fun _ => PyError.badField
    let lon ← (pyFloat (f.getD 2 "")).mapError fun _ => PyError.badField
    let lat ← (pyFloat (f.getD 3 "")).mapError fun _ => PyError.badField
    return (point_id, lon, lat)

/-- Dispatch for one (already stripped) line of the body of a `.map` file
(the `for line in content[9:]` loop of `parse_map`).  The MMPLL out-of-order
branch executes `raise Error()` where `Error` is an undefined name, i.e. a
Python `NameError`; the MMPXY branch raises the bare `InvalidFileException`. -/
def parse_line (m : MapFile) (line : String) : Except PyError MapFile := do
  if pyStartsWith line "Point" then
    let p ← _parse_point line
    match p with
    | some point => return { m with points := m.points ++ [point] }
    | none => return m
  else if pyStartsWith line "IWH,Map Image Width/Height," then
    let parts := pySplit (pyDropStr line 27) ','
    if parts.length ≠ 2 then
      .error .valueError
    else
      let w ← pyInt (parts.getD 0 "")
      let h ← pyInt (parts.getD 1 "")
      return { m with image_width := some w, image_height := some h }
  else if pyStartsWith line "MMPNUM," then
    let n ← pyInt (pyDropStr line 7)
    return { m with mmpnum := some n }
  else if pyStartsWith line "MMPLL" then
    let r ← _parse_mmpll line
    let (point_id, lat, lon) := r
    if point_id - 1 ≠ (m.mmpll.length : ℤ) then
      .error .nameError
    else
      return { m with mmpll := m.mmpll ++ [(lat, lon)] }
  else if pyStartsWith line "MMPXY" then
    let r ← _parse_mmpxy line
    let (point_id, x, y) := r
    if point_id - 1 ≠ (m.mmpxy.length : ℤ) then
      .error .invalidFile
    else
      return { m with mmpxy := m.mmpxy ++ [(x, y)] }
  else if pyStartsWith line "MM1B," then
    let v ← pyFloat (pyDropStr line 5)
    return { m with mm1b := some v }
  else
    return m

/-- The required first line of a `.map` file. -/
def headerLine : String := "OziExplorer Map Data File Version 2.2"

/-- The part of `parse_map` after the header check: take the
filename/path/projection lines by index (an absent index is an
`IndexError`), then fold `parse_line` over the lines from index 9 on. -/
def parse_tail (content : List String) : Except PyError MapFile := do
  let fn ← pyAt content 1
  let fp ← pyAt content 2
  let proj ← pyAt content 4
  let mproj ← pyAt content 8
  let m : MapFile :=
    { img_filename := some fn, img_filepath := some fp,
      projection := some proj, map_projection := some mproj }
  (content.drop 9).foldlM parse_line m

/-- `parse_map` on the already split-and-stripped line list: check the header
line, then continue with `parse_tail`. -/
def parse_content (content : List String) : Except PyError MapFile := do
  let c0 ← pyAt content 0
  if c0 ≠ headerLine then
    .error .badHeader
  else
    parse_tail content

/-- `MapFile.parse_map(content)` (source lines 70-108): split on newlines,
strip every line, then process the lines. -/
def MapFile.parse_map (text : String) : Except PyError MapFile :=
  parse_content ((pySplit text '\n').map pyStrip)

/-! ### Serialization (`MapFile.to_str`, source lines 110-135) -/

/-- Python `int(...)` applied to a float value: truncation toward zero. -/
def pyTrunc (q : ℚ) : ℤ := if q < 0 then -⌊-q⌋ else ⌊q⌋

/-- Right-align a string in a field of width `w` (Python `{:>w}`). -/
def rightAlign (w : ℕ) (s : String) : String :=
  String.mk (List.replicate (w - s.length) ' ') ++ s

/-- Left-pad a digit string with zeros to width `w`. -/
def zeroPadLeft (w : ℕ) (s : String) : String :=
  String.mk (List.replicate (w - s.length) '0') ++ s

/-- Python `"%.7f"`-style formatting (`{:3.7f}`: the minimum width 3 is always
exceeded by the 9+ characters of the result).  Rounding is only exercised in
this development on values that are exact at 7 decimal places, where every
rounding mode agrees (Python's negative-zero display is not modelled). -/
def fmtFixed7 (q : ℚ) : String :=
  let n := round (q * 10000000)
  let sign := if n < 0 then "-" else ""
  let a := n.natAbs
  sign ++ toString (a / 10000000) ++ "." ++ zeroPadLeft 7 (toString (a % 10000000))

/-- Python `str()` of a float holding a finite-decimal rational: the shortest
decimal form with at least one fractional digit (e.g. `12.5`, `5.0`).
Non-decimal rationals cannot be produced by the parser; for them the raw
rational is printed (unreachable in this development). -/
def fmtPyFloat (q : ℚ) : String :=
  match (List.range 28).find? (fun k => (q * (10 : ℚ) ^ k).den = 1) with
  | some k =>
      let k := max k 1
      let n := (q * (10 : ℚ) ^ k).num
      let sign := if n < 0 then "-" else ""
      let a := n.natAbs
      sign ++ toString (a / 10 ^ k) ++ "." ++ zeroPadLeft k (toString (a % 10 ^ k))
  | none => toString q

/-- `"{}".format(x)` for an optional int: Python prints `None` for `None`. -/
def fmtOptInt : Option ℤ → String
  | some i => toString i
  | none => "None"

/-- `"{}".format(x)` for an optional float. -/
def fmtOptFloat : Option ℚ → String
  | some q => fmtPyFloat q
  | none => "None"

/-- `x or "dummy.jpg"`: Python replaces both `None` and the empty string. -/
def orDummy : Option String → String
  | some s => if s = "" then "dummy.jpg" else s
  | none => "dummy.jpg"

/-- One `Point{idx}` line of `_MAP_POINT_TEMPLATE` (source lines 316-318).
The longitude magnitude/letter triple (letters `S`/`N`) goes to fields 6-8 and
the latitude triple (letters `W`/`E`) to fields 9-11, per the template. -/
def pointLine (idx : ℕ) (p : Point) : String :=
  let latT := degree2minsec p.lat "W" "E"
  let lonT := degree2minsec p.lon "S" "N"
  "Point" ++ toString idx ++ ",xy," ++ rightAlign 5 (toString (pyTrunc p.x)) ++ ","
    ++ rightAlign 5 (toString (pyTrunc p.y)) ++ ",in, deg,"
    ++ rightAlign 4 (toString lonT.1) ++ "," ++ fmtFixed7 lonT.2.1 ++ "," ++ lonT.2.2 ++ ","
    ++ rightAlign 4 (toString latT.1) ++ "," ++ fmtFixed7 latT.2.1 ++ "," ++ latT.2.2
    ++ ", grid,   ,           ,           ,N"

/-- `MapFile.to_str()` (source lines 110-135 and `_MAP_TEMPALTE`),
reproducing the fixed template byte for byte. -/
def MapFile.to_str (m : MapFile) : String :=
  let points := joinNL
    ((m.points.enum).map fun ip => pointLine ip.1 ip.2)
  let mmpxy := joinNL
    ((m.mmpxy.enum).map fun ix =>
      "MMPXY," ++ toString (ix.1 + 1) ++ "," ++ toString ix.2.1 ++ "," ++ toString ix.2.2)
  let mmpll := joinNL
    ((m.mmpll.enum).map fun ill =>
      "MMPLL," ++ toString (ill.1 + 1) ++ "," ++ fmtFixed7 ill.2.1 ++ "," ++ fmtFixed7 ill.2.2)
  "OziExplorer Map Data File Version 2.2\n"
    ++ orDummy m.img_filename ++ "\n"
    ++ orDummy m.img_filepath ++ "\n"
    ++ "1 ,Map Code,\n"
    ++ "WGS 84,WGS 84,   0.0000,   0.0000,WGS 84\n"
    ++ "Reserved 1\n"
    ++ "Reserved 2\n"
    ++ "Magnetic Variation,,,E\n"
    ++ "Map Projection,Latitude/Longitude,PolyCal,No,AutoCalOnly,No,BSBUseWPX,No\n"
    ++ points ++ "\n"
    ++ "Projection Setup,,,,,,,,,,\n"
    ++ "Map Feature = MF ; Map Comment = MC     These follow if they exist\n"
    ++ "Track File = TF      These follow if they exist\n"
    ++ "Moving Map Parameters = MM?    These follow if they exist\n"
    ++ "MM0,Yes\n"
    ++ "MMPNUM," ++ toString m.mmpxy.length ++ "\n"
    ++ mmpxy ++ "\n"
    ++ mmpll ++ "\n"
    ++ "MM1B," ++ fmtOptFloat m.mm1b ++ "\n"
    ++ "MOP,Map Open Position,0,0\n"
    ++ "IWH,Map Image Width/Height," ++ fmtOptInt m.image_width ++ ","
    ++ fmtOptInt m.image_height ++ "\n"

/-! ### Calibration engine -/

/-- Python true division: raises `ZeroDivisionError` on a zero divisor. -/
def pydiv (a b : ℚ) : Except PyError ℚ :=
  if b = 0 then .error .zeroDivisionError else .ok (a / b)

/-- `_det(a, b, c, d) = a*d - b*c` (source lines 296-297). -/
def _det (a b c d : ℚ) : ℚ := a * d - b * c

/-- Squared pixel distance from point `pos` to `(x0, y0)`.  The source
computes `math.sqrt` of this; the square root is strictly monotone on
nonnegative reals, so the stable sorts in `_sort_points` order points
identically with or without it (the spec-facing theorems restate minimality
in genuine Euclidean distance, see `eucl`). -/
def dist_from_sq (pos : Point) (x0 y0 : ℚ) : ℚ :=
  (pos.x - x0) ^ 2 + (pos.y - y0) ^ 2

/-- Stable insertion into a key-sorted list: an incoming element goes before
the first element whose key is not smaller, matching the order Python's
stable `sorted(..., key=...)` produces for elements inserted from the front. -/
def insertK (key : Point → ℚ) (a : Point) : List Point → List Point
  | [] => [a]
  | b :: bs => if key a ≤ key b then a :: b :: bs else b :: insertK key a bs

/-- Stable sort by key, modelling Python's `sorted(positions, key=...)`. -/
def sortK (key : Point → ℚ) : List Point → List Point
  | [] => []
  | a :: as => insertK key a (sortK key as)

/-- `_sort_points(positions, width, height)` (source lines 229-243): `[]` for
an empty input (modelled `none`), otherwise the heads of the four stable
sorts by distance to the four image corners, returned as `(nw, ne, se, sw)`. -/
def _sort_points (positions : List Point) (width height : ℚ) :
    Option (Point × Point × Point × Point) :=
  if positions = [] then none
  else
    match (sortK (fun p => dist_from_sq p 0 0) positions).head?,
          (sortK (fun p => dist_from_sq p width 0) positions).head?,
          (sortK (fun p => dist_from_sq p 0 height) positions).head?,
          (sortK (fun p => dist_from_sq p width height) positions).head? with
    | some nw, some ne, some sw, some se => some (nw, ne, se, sw)
    | _, _, _, _ => none

/-- `_calibrate_calculate(positions, width, height)` (source lines 246-278).
Unpacking the empty result of `_sort_points` into `nw, ne, se, sw` raises a
Python `ValueError`; the slope divisions can raise `ZeroDivisionError`.
The four `(x, y, lat, lon)` rows are returned in NW, NE, SE, SW order. -/
def _calibrate_calculate (positions : List Point) (width height : ℚ) :
    Except PyError ((ℚ × ℚ × ℚ × ℚ) × (ℚ × ℚ × ℚ × ℚ) × (ℚ × ℚ × ℚ × ℚ) × (ℚ × ℚ × ℚ × ℚ)) := do
  match _sort_points positions width height with
  | none => .error .valueError
  | some (nw, ne, se, sw) =>
    let ds1 ← pydiv (nw.lat - ne.lat) (nw.x - ne.x)
    let nw_lat := nw.lat - ds1 * nw.x
    let ne_lat := nw_lat + ds1 * width
    let ds2 ← pydiv (se.lat - sw.lat) (se.x - sw.x)
    let sw_lat := sw.lat - ds2 * sw.x
    let se_lat := sw_lat + ds2 * width
    let ds3 ← pydiv (nw.lon - sw.lon) (nw.y - sw.y)
    let nw_lon := nw.lon - ds3 * nw.y
    let sw_lon := nw_lon + ds3 * height
    let ds4 ← pydiv (ne.lon - se.lon) (ne.y - se.y)
    let ne_lon := ne.lon - ds4 * ne.y
    let se_lon := ne_lon + ds4 * height
    return ((0, 0, nw_lat, nw_lon), (width, 0, ne_lat, ne_lon),
            (width, height, se_lat, se_lon), (0, height, sw_lat, sw_lon))

/-- `MapFile.calibrate()` (source lines 142-164).  The corner rows go into
`mmpxy`/`mmpll` (their pixel components are the integer corner coordinates
`(0,0) (w,0) (w,h) (0,h)`), `mmpnum` becomes their count, and the MM1B scale
is computed from the fresh `mmpll`.  The scale involves `math.cos`, so it is
real-valued; Python stores it into `self.mm1b`, which this ℚ-valued record
cannot hold, so the scale is returned alongside the updated record.  A `None`
width/height only matters once a point distance or slope is computed, which
never happens for an empty points list (the unpacking `ValueError` fires
first); for a nonempty list the first arithmetic on `None` raises
`TypeError`. -/
noncomputable def MapFile.calibrate (m : MapFile) : Except PyError (MapFile × ℝ) := do
  match m.image_width, m.image_height with
  | some w, some h =>
    let mmp ← _calibrate_calculate m.points (w : ℚ) (h : ℚ)
    let nwR := mmp.1
    let neR := mmp.2.1
    let seR := mmp.2.2.1
    let swR := mmp.2.2.2
    let mmpll := [(nwR.2.2.1, nwR.2.2.2), (neR.2.2.1, neR.2.2.2),
                  (seR.2.2.1, seR.2.2.2), (swR.2.2.1, swR.2.2.2)]
    let mmpxy : List (ℤ × ℤ) := [(0, 0), (w, 0), (w, h), (0, h)]
    let m' := { m with mmpxy := mmpxy, mmpll := mmpll,
                       mmpnum := some (mmpll.length : ℤ) }
    let lat_w_avg := (nwR.2.2.1 + swR.2.2.1) / 2
    let lat_e_avg := (neR.2.2.1 + seR.2.2.1) / 2
    let lon_avg := (nwR.2.2.2 + swR.2.2.2 + neR.2.2.2 + seR.2.2.2) / 4
    let d_lat := lat_e_avg - lat_w_avg
    let d_lat_dist : ℝ :=
      |(d_lat : ℝ) * Real.pi / 180 * 6378137 * Real.cos ((lon_avg : ℝ) * Real.pi / 180)|
    if w = 0 then .error .zeroDivisionError
    else return (m', d_lat_dist / (w : ℝ))
  | _, _ =>
    if m.points.isEmpty then .error .valueError else .error .typeError

/-- `_intersect_lines(x1..y4)` (source lines 300-306): 2D line-line
intersection by determinants.  Python's `_det(...) or 1` replaces a zero (or
negative-zero) determinant by `1`, so the divisions cannot fail. -/
def _intersect_lines (x1 y1 x2 y2 x3 y3 x4 y4 : ℚ) : Except PyError (ℚ × ℚ) := do
  let d0 := _det (x1 - x2) (y1 - y2) (x3 - x4) (y3 - y4)
  let d := if d0 = 0 then 1 else d0
  let d1 := _det x1 y1 x2 y2
  let d2 := _det x3 y3 x4 y4
  let px ← pydiv (_det d1 (x1 - x2) d2 (x3 - x4)) d
  let py ← pydiv (_det d1 (y1 - y2) d2 (y3 - y4)) d
  return (px, py)

/-- `_map_xy_lonlat(xy0..xy3, sx, sy, x, y)` (source lines 280-293): blend the
corners into two lines at the query position and intersect them. -/
def _map_xy_lonlat (xy0 xy1 xy2 xy3 : ℚ × ℚ) (sx sy x y : ℚ) :
    Except PyError (ℚ × ℚ) := do
  let x0 := xy0.1; let y0 := xy0.2
  let x1 := xy1.1; let y1 := xy1.2
  let x2 := xy2.1; let y2 := xy2.2
  let x3 := xy3.1; let y3 := xy3.2
  let syy := sy - y
  let sxx := sx - x
  let a1 ← pydiv (syy * x0 + y * x3) sy
  let a2 ← pydiv (syy * y0 + y * y3) sy
  let a3 ← pydiv (syy * x1 + y * x2) sy
  let a4 ← pydiv (syy * y1 + y * y2) sy
  let b1 ← pydiv (sxx * x0 + x * x1) sx
  let b2 ← pydiv (sxx * y0 + x * y1) sx
  let b3 ← pydiv (sxx * x3 + x * x2) sx
  let b4 ← pydiv (sxx * y3 + x * y2) sx
  _intersect_lines a1 a2 a3 a4 b1 b2 b3 b4

/-- `MapFile.xy2latlon(x, y)` (source lines 170-176): `None` when `mmpll` is
empty, otherwise the first four `mmpll` entries are subscripted (raising
`IndexError` when fewer than 4 exist) and passed with the image size to
`_map_xy_lonlat`; a `None` width/height raises `TypeError` at the first
subtraction inside. -/
def MapFile.xy2latlon (m : MapFile) (x y : ℚ) : Except PyError (Option (ℚ × ℚ)) := do
  if m.mmpll = [] then
    return none
  else
    let c0 ← pyAt m.mmpll 0
    let c1 ← pyAt m.mmpll 1
    let c2 ← pyAt m.mmpll 2
    let c3 ← pyAt m.mmpll 3
    match m.image_width, m.image_height with
    | some sx, some sy =>
      let p ← _map_xy_lonlat c0 c1 c2 c3 (sx : ℚ) (sy : ℚ) x y
      return some p
    | _, _ => .error .typeError

/-! ### Helper lemmas about the `Except` monad -/

theorem bind_eq_ok {α β : Type} {x : Except PyError α} {f : α → Except PyError β} {b : β}
    (h : (x >>= f) = .ok b) : ∃ a, x = .ok a ∧ f a = .ok b := by
  cases x with
  | ok a => exact ⟨a, rfl, h⟩
  | error e => simp [Bind.bind, Except.bind] at h

/-! ### C5: out-of-order MMPLL/MMPXY corners -/

/-- A `.map` text whose first MMPLL line carries point id 2. -/
def c5TextLL : String :=
  "OziExplorer Map Data File Version 2.2\n1\n2\n3\n4\n5\n6\n7\n8\nMMPLL,2, 3.0, 4.0"

/-- A `.map` text whose first MMPXY line carries point id 2. -/
def c5TextXY : String :=
  "OziExplorer Map Data File Version 2.2\n1\n2\n3\n4\n5\n6\n7\n8\nMMPXY,2,3,4"

/-- C5: for an out-of-order MMPXY corner, `parse_map` does raise the module's
typed `InvalidFileException`, but for an out-of-order MMPLL corner it executes
`raise Error()` where `Error` is an undefined name, i.e. it fails with a
Python `NameError` instead of the typed format error the claim requires. -/
theorem c5_out_of_order_corner :
    MapFile.parse_map c5TextLL = .error .nameError ∧
    MapFile.parse_map c5TextXY = .error .invalidFile := by
  constructor <;> rfl

/-! ### C6: the header check

The only `badHeader` raise site is the comparison of the *stripped* first
line against the literal; every later failure is of a different kind.  The
lemmas below push that through the whole parser. -/

theorem noBH_bind {α β : Type} {x : Except PyError α} {f : α → Except PyError β}
    (hx : x ≠ .error .badHeader) (hf : ∀ a, f a ≠ .error .badHeader) :
    (x >>= f) ≠ .error .badHeader := by
  cases x with
  | ok a => simpa [Bind.bind, Except.bind] using hf a
  | error e => simpa [Bind.bind, Except.bind] using hx

theorem noBH_pure {α : Type} (a : α) :
    (pure a : Except PyError α) ≠ .error .badHeader := by
  simp [pure, Except.pure]

theorem noBH_ite {α : Type} {c : Prop} [Decidable c] {x y : Except PyError α}
    (hx : x ≠ .error .badHeader) (hy : y ≠ .error .badHeader) :
    (if c then x else y) ≠ .error .badHeader := by
  split <;> assumption

theorem noBH_pyInt (s : String) : pyInt s ≠ .error .badHeader := by
  unfold pyInt; cases pyIntCore s <;> simp

theorem noBH_pyFloat (s : String) : pyFloat s ≠ .error .badHeader := by
  unfold pyFloat; cases pyFloatCore s <;> simp

theorem noBH_pyAt {α : Type} (l : List α) (i : ℕ) : pyAt l i ≠ .error .badHeader := by
  unfold pyAt; cases l.get? i <;> simp

theorem noBH_mapError {α : Type} (x : Except PyError α) :
    x.mapError (fun _ => PyError.badField) ≠ .error .badHeader := by
  cases x <;> simp [Except.mapError]

theorem noBH_parse_point (line : String) :
    _parse_point line ≠ .error .badHeader := by
  unfold _parse_point
  refine noBH_bind (noBH_pyAt _ _) fun f2 => ?_
  refine noBH_ite (noBH_pure _) ?_
  refine noBH_bind (noBH_pyInt _) fun x => ?_
  refine noBH_bind (noBH_pyAt _ _) fun f3 => ?_
  refine noBH_bind (noBH_pyInt _) fun y => ?_
  refine noBH_bind (noBH_pyAt _ _) fun f9 => ?_
  refine noBH_bind (noBH_pyInt _) fun i9 => ?_
  refine noBH_bind (noBH_pyAt _ _) fun f10 => ?_
  refine noBH_bind (noBH_pyFloat _) fun q10 => ?_
  refine noBH_bind (noBH_pyAt _ _) fun f6 => ?_
  refine noBH_bind (noBH_pyInt _) fun i6 => ?_
  refine noBH_bind (noBH_pyAt _ _) fun f7 => ?_
  refine noBH_bind (noBH_pyFloat _) fun q7 => ?_
  refine noBH_bind (noBH_pyAt _ _) fun f0 => ?_
  refine noBH_bind (noBH_pyInt _) fun idx => ?_
  refine noBH_bind (noBH_pyAt _ _) fun f8 => ?_
  refine noBH_bind (noBH_pyAt _ _) fun f11 => ?_
  exact noBH_pure _

theorem noBH_parse_mmpxy (line : String) :
    _parse_mmpxy line ≠ .error .badHeader := by
  unfold _parse_mmpxy
  refine noBH_ite (by simp) ?_
  refine noBH_bind (noBH_mapError _) fun a => ?_
  refine noBH_bind (noBH_mapError _) fun b => ?_
  refine noBH_bind (noBH_mapError _) fun c => ?_
  exact noBH_pure _

theorem noBH_parse_mmpll (line : String) :
    _parse_mmpll line ≠ .error .badHeader := by
  unfold _parse_mmpll
  refine noBH_ite (by simp) ?_
  refine noBH_bind (noBH_mapError _) fun a => ?_
  refine noBH_bind (noBH_mapError _) fun b => ?_
  refine noBH_bind (noBH_mapError _) fun c => ?_
  exact noBH_pure _

theorem noBH_parse_line (m : MapFile) (line : String) :
    parse_line m line ≠ .error .badHeader := by
  unfold parse_line
  refine noBH_ite ?_ (noBH_ite ?_ (noBH_ite ?_ (noBH_ite ?_ (noBH_ite ?_
    (noBH_ite ?_ (noBH_pure _))))))
  · refine noBH_bind (noBH_parse_point _) fun p => ?_
    cases p <;> exact noBH_pure _
  · refine noBH_ite (by simp) ?_
    refine noBH_bind (noBH_pyInt _) fun w => ?_
    refine noBH_bind (noBH_pyInt _) fun h => ?_
    exact noBH_pure _
  · exact noBH_bind (noBH_pyInt _) fun n => noBH_pure _
  · refine noBH_bind (noBH_parse_mmpll _) fun r => ?_
    obtain ⟨pid, la, lo⟩ := r
    exact noBH_ite (by simp) (noBH_pure _)
  · refine noBH_bind (noBH_parse_mmpxy _) fun r => ?_
    obtain ⟨pid, xx, yy⟩ := r
    exact noBH_ite (by simp) (noBH_pure _)
  · exact noBH_bind (noBH_pyFloat _) fun v => noBH_pure _

theorem noBH_foldlM (ls : List String) (m : MapFile) :
    ls.foldlM parse_line m ≠ .error .badHeader := by
  induction ls generalizing m with
  | nil => exact noBH_pure m
  | cons a as ih =>
    rw [List.foldlM_cons]
    exact noBH_bind (noBH_parse_line m a) fun m' => ih m'

theorem noBH_parse_tail (content : List String) :
    parse_tail content ≠ .error .badHeader := by
  unfold parse_tail
  refine noBH_bind (noBH_pyAt _ _) fun fn => ?_
  refine noBH_bind (noBH_pyAt _ _) fun fp => ?_
  refine noBH_bind (noBH_pyAt _ _) fun proj => ?_
  refine noBH_bind (noBH_pyAt _ _) fun mproj => ?_
  exact noBH_foldlM _ _

theorem parse_content_cons (c : String) (rest : List String) :
    parse_content (c :: rest) =
      if c ≠ headerLine then .error .badHeader else parse_tail (c :: rest) := rfl

/-- C6 amended claim: the parser strips each line before looking at it, so
`parse_map` fails with the bad-header error exactly when the *whitespace
stripped* first line differs from the required literal; when the stripped
first line equals the literal, the parse never fails with the bad-header
error (though it may fail otherwise). -/
theorem c6_badheader_iff_stripped (text c : String) (rest : List String)
    (hc : (pySplit text '\n').map pyStrip = c :: rest) :
    MapFile.parse_map text = .error .badHeader ↔ c ≠ headerLine := by
  have hm : MapFile.parse_map text = parse_content (c :: rest) := by
    unfold MapFile.parse_map; rw [hc]
  rw [hm, parse_content_cons]
  by_cases hch : c = headerLine
  · exact iff_of_false (by rw [if_neg (by simp [hch])]; exact noBH_parse_tail _)
      (by simp [hch])
  · exact iff_of_true (by rw [if_pos hch]) hch

/-- A text whose raw first line (leading space) differs from the header
literal character for character, yet `parse_map` does not fail with the
bad-header error: stripping makes the header check pass, and the parse then
fails for a different reason (too few lines). -/
def c6Text : String := " OziExplorer Map Data File Version 2.2"

/-- C6 counterexample: the claim that every input whose first line is not
character-for-character equal to the literal fails with the bad-header error
is false: this input's raw first line has a leading space (so it differs from
the literal), yet the parse result is an index error, not the bad-header
error. -/
theorem c6_counterexample :
    (pySplit c6Text '\n').getD 0 "" ≠ headerLine ∧
    MapFile.parse_map c6Text = .error .indexError := by
  exact ⟨by decide, rfl⟩

/-- C6 witness: instantiate the amended header theorem on a concrete input
with a wrong header. -/
theorem c6_witness : MapFile.parse_map "x" = .error .badHeader :=
  (c6_badheader_iff_stripped "x" "x" [] (by decide)).mpr (by decide)

/-! ### C1: hemisphere sign handling in `_parse_point` -/

/-- A well-formed `Point` line: fields 6/7 hold 30 degrees 0 minutes with
letter `E` in field 8; fields 9/10 hold 40 degrees 0 minutes with letter `N`
in field 11. -/
def c1Line : String := "Point07,,1,2,,,30,0.0,E,40,0.0,N"

/-- The point `_parse_point` produces for `c1Line`: the `E` in field 8
negates the *latitude* value (built from fields 9/10), and field 11 (`N`,
not `S`) leaves the *longitude* value (built from fields 6/7) positive. -/
def c1Point : Point := { idx := some 7, x := 1, y := 2, lat := -40, lon := 30 }

theorem parse_point_eval_c1 : _parse_point c1Line = .ok (some c1Point) := by
  with_unfolding_all rfl

/-- C1 counterexample: on `c1Line` the claim predicts longitude
`-(30 + 0/60)` (negated because field 8 is `E`) and latitude `40 + 0/60`
(not negated because field 11 is `N`), but the code produces longitude `30`
and latitude `-40`: field 8 controls the latitude sign and field 11 the
longitude sign, not the other way around. -/
theorem c1_counterexample :
    _parse_point c1Line = .ok (some c1Point) ∧
    ¬(c1Point.lon = -((30 : ℚ) + 0 / 60) ∧ c1Point.lat = (40 : ℚ) + 0 / 60) := by
  refine ⟨parse_point_eval_c1, ?_⟩
  simp only [c1Point]
  norm_num

/-- C1 amended claim: for every `Point` line that `_parse_point` accepts
(producing a point), the parsed latitude is `field9 + field10/60`, negated
exactly when field 8 is `E`, and the parsed longitude is
`field6 + field7/60`, negated exactly when field 11 is `S`; no other field
influences the signs (the formulas below determine both values completely
from those fields). -/
theorem c1_parse_point_signs (line : String) (p : Point)
    (h : _parse_point line = .ok (some p)) :
    ∃ (f6 f7 f8 f9 f10 f11 : String) (i6 i9 : ℤ) (q7 q10 : ℚ),
      pyAt (pySplit line ',') 6 = .ok f6 ∧ pyAt (pySplit line ',') 7 = .ok f7 ∧
      pyAt (pySplit line ',') 8 = .ok f8 ∧ pyAt (pySplit line ',') 9 = .ok f9 ∧
      pyAt (pySplit line ',') 10 = .ok f10 ∧ pyAt (pySplit line ',') 11 = .ok f11 ∧
      pyInt f6 = .ok i6 ∧ pyFloat f7 = .ok q7 ∧
      pyInt f9 = .ok i9 ∧ pyFloat f10 = .ok q10 ∧
      p.lat = (if f8 = "E" then -((i9 : ℚ) + q10 / 60) else (i9 : ℚ) + q10 / 60) ∧
      p.lon = (if f11 = "S" then -((i6 : ℚ) + q7 / 60) else (i6 : ℚ) + q7 / 60) := by
  unfold _parse_point at h
  obtain ⟨f2, hf2, h⟩ := bind_eq_ok h
  by_cases hemp : pyStrip f2 = ""
  · rw [if_pos hemp] at h
    simp [pure, Except.pure] at h
  · rw [if_neg hemp] at h
    obtain ⟨x, hx, h⟩ := bind_eq_ok h
    obtain ⟨f3, hf3, h⟩ := bind_eq_ok h
    obtain ⟨y, hy, h⟩ := bind_eq_ok h
    obtain ⟨f9, hf9, h⟩ := bind_eq_ok h
    obtain ⟨i9, hi9, h⟩ := bind_eq_ok h
    obtain ⟨f10, hf10, h⟩ := bind_eq_ok h
    obtain ⟨q10, hq10, h⟩ := bind_eq_ok h
    obtain ⟨f6, hf6, h⟩ := bind_eq_ok h
    obtain ⟨i6, hi6, h⟩ := bind_eq_ok h
    obtain ⟨f7, hf7, h⟩ := bind_eq_ok h
    obtain ⟨q7, hq7, h⟩ := bind_eq_ok h
    obtain ⟨f0, hf0, h⟩ := bind_eq_ok h
    obtain ⟨idx, hidx, h⟩ := bind_eq_ok h
    obtain ⟨f8, hf8, h⟩ := bind_eq_ok h
    obtain ⟨f11, hf11, h⟩ := bind_eq_ok h
    simp only [pure, Except.pure, Except.ok.injEq, Option.some.injEq] at h
    subst h
    exact ⟨f6, f7, f8, f9, f10, f11, i6, i9, q7, q10, hf6, hf7, hf8, hf9, hf10,
      hf11, hi6, hq7, hi9, hq10, rfl, rfl⟩

/-- C1 witness: the amended sign theorem instantiated on `c1Line`. -/
theorem c1_witness :
    ∃ (f6 f7 f8 f9 f10 f11 : String) (i6 i9 : ℤ) (q7 q10 : ℚ),
      pyAt (pySplit c1Line ',') 6 = .ok f6 ∧ pyAt (pySplit c1Line ',') 7 = .ok f7 ∧
      pyAt (pySplit c1Line ',') 8 = .ok f8 ∧ pyAt (pySplit c1Line ',') 9 = .ok f9 ∧
      pyAt (pySplit c1Line ',') 10 = .ok f10 ∧ pyAt (pySplit c1Line ',') 11 = .ok f11 ∧
      pyInt f6 = .ok i6 ∧ pyFloat f7 = .ok q7 ∧
      pyInt f9 = .ok i9 ∧ pyFloat f10 = .ok q10 ∧
      c1Point.lat = (if f8 = "E" then -((i9 : ℚ) + q10 / 60) else (i9 : ℚ) + q10 / 60) ∧
      c1Point.lon = (if f11 = "S" then -((i6 : ℚ) + q7 / 60) else (i6 : ℚ) + q7 / 60) :=
  c1_parse_point_signs c1Line c1Point parse_point_eval_c1

/-! ### C2: round-tripping through `to_str` -/

/-- A valid `.map` text exercising every codec-controlled field: filenames,
one reference point, one pixel and one geo corner, the scale factor and the
image dimensions. -/
def c2Text : String :=
  "OziExplorer Map Data File Version 2.2\ni.jpg\ni.jpg\nx\np\nx\nx\nx\nmp\n"
    ++ "Point01,,1,1,,,2,3.0,E,4,5.0,N\n"
    ++ "IWH,Map Image Width/Height,1000,800\n"
    ++ "MMPNUM,1\nMMPXY,1,0,0\nMMPLL,1,10.5,20.25\nMM1B,12.5"

/-- The record `parse_map` produces for `c2Text`. -/
def c2Record : MapFile :=
  { img_filename := some "i.jpg", img_filepath := some "i.jpg",
    projection := some "p", map_projection := some "mp",
    points := [{ idx := some 1, x := 1, y := 1, lat := -(49/12 : ℚ), lon := (41/20 : ℚ) }],
    mmpxy := [(0, 0)], mmpll := [((21/2 : ℚ), (81/4 : ℚ))], mmpnum := some 1,
    mm1b := some (25/2 : ℚ), image_width := some 1000, image_height := some 800 }

set_option maxRecDepth 8000 in
/-- C2: `parse_map` accepts `c2Text` (producing `c2Record`, which has one
point), but re-parsing the serialized record fails with an uncaught
`ValueError` instead of reproducing the record: `to_str` writes the point
line as `Point0,...` (one digit after the 5-character word `Point`), while
`_parse_point` reads the index as `int(fields[0][6:])`, i.e. `int("")`.
The round trip `parse(serialize(parse(t)))` therefore does not succeed. -/
theorem c2_roundtrip_failure :
    MapFile.parse_map c2Text = .ok c2Record ∧
    MapFile.parse_map c2Record.to_str = .error .valueError := by
  constructor <;> with_unfolding_all rfl

/-! ### C7: `calibrate` on an empty points list -/

/-- C7 counterexample: on a record with image dimensions but no points,
`calibrate` does not produce an empty no-failure result — it fails with the
`ValueError` raised by unpacking the empty result of `_sort_points` into
`nw, ne, se, sw`. -/
theorem c7_counterexample :
    ({ image_width := some 100, image_height := some 100 } : MapFile).calibrate
      = .error .valueError := by
  with_unfolding_all rfl

/-- C7 amended claim: the corner-sorting step `_sort_points` alone returns
the empty result for an empty points list; `calibrate` itself, however, then
fails with a `ValueError` (unpacking the empty corner tuple), whatever the
rest of the record holds. -/
theorem c7_empty_points :
    (∀ w h : ℚ, _sort_points [] w h = none) ∧
    (∀ m : MapFile, m.points = [] → m.calibrate = .error .valueError) := by
  refine ⟨fun w h => rfl, fun m hp => ?_⟩
  unfold MapFile.calibrate
  cases hW : m.image_width with
  | some w =>
    cases hH : m.image_height with
    | some h =>
      rw [hp]
      show (Except.error PyError.valueError >>= _) = _
      simp [Bind.bind, Except.bind]
    | none => simp [hp]
  | none => simp [hp]

/-- C7 witness: the amended theorem instantiated on the empty record. -/
theorem c7_witness :
    _sort_points [] 0 0 = none ∧ ({} : MapFile).calibrate = .error .valueError :=
  ⟨c7_empty_points.1 0 0, c7_empty_points.2 {} rfl⟩

/-! ### C10: `xy2latlon` on short corner lists -/

/-- C10: `xy2latlon` returns the no-calibration `none` result exactly when
the record's `mmpll` list is empty; with 1, 2 or 3 entries it is not total:
the subscript of the missing second/third/fourth corner raises `IndexError`
instead of returning `none` or a coordinate pair. -/
theorem c10_xy2latlon_none_iff (m : MapFile) (x y : ℚ) :
    (m.xy2latlon x y = .ok none ↔ m.mmpll = []) ∧
    (m.mmpll.length = 1 ∨ m.mmpll.length = 2 ∨ m.mmpll.length = 3 →
      m.xy2latlon x y = .error .indexError) := by
  constructor
  · constructor
    · intro hok
      by_cases hmp : m.mmpll = []
      · exact hmp
      · exfalso
        unfold MapFile.xy2latlon at hok
        rw [if_neg hmp] at hok
        obtain ⟨c0, h0, hok⟩ := bind_eq_ok hok
        obtain ⟨c1, h1, hok⟩ := bind_eq_ok hok
        obtain ⟨c2, h2, hok⟩ := bind_eq_ok hok
        obtain ⟨c3, h3, hok⟩ := bind_eq_ok hok
        cases hw : m.image_width with
        | none => rw [hw] at hok; cases m.image_height <;> simp at hok
        | some sx =>
          cases hh : m.image_height with
          | none => rw [hw, hh] at hok; simp at hok
          | some sy =>
            rw [hw, hh] at hok
            simp only [] at hok
            obtain ⟨p, hp, hok⟩ := bind_eq_ok hok
            simp [pure, Except.pure] at hok
    · intro hmp
      unfold MapFile.xy2latlon
      rw [if_pos hmp]
      rfl
  · intro hlen
    rcases m with ⟨fn, imf, imp, proj, mproj, pts, mxy, mll, mnum, mb, iw, ih⟩
    rcases mll with _ | ⟨a, _ | ⟨b, _ | ⟨c, _ | ⟨d, l⟩⟩⟩⟩ <;>
      simp only [List.length_nil, List.length_cons] at hlen <;>
      first
        | omega
        | simp [MapFile.xy2latlon, pyAt, List.get?, Bind.bind, Except.bind]

/-- C10 witness: a record with a single geo corner hits the out-of-bounds
subscript. -/
theorem c10_witness :
    ({ mmpll := [(1, 2)] } : MapFile).xy2latlon 0 0 = .error .indexError :=
  (c10_xy2latlon_none_iff { mmpll := [(1, 2)] } 0 0).2 (Or.inl rfl)

/-! ### C9: the inversion never divides by zero -/

theorem intersect_lines_total (x1 y1 x2 y2 x3 y3 x4 y4 : ℚ) :
    ∃ p, _intersect_lines x1 y1 x2 y2 x3 y3 x4 y4 = .ok p := by
  have hd1 : (if _det (x1 - x2) (y1 - y2) (x3 - x4) (y3 - y4) = 0 then (1 : ℚ)
      else _det (x1 - x2) (y1 - y2) (x3 - x4) (y3 - y4)) ≠ 0 := by
    split
    · exact one_ne_zero
    · assumption
  unfold _intersect_lines
  simp only [pydiv, hd1, ite_false, Bind.bind, Except.bind]
  exact ⟨_, rfl⟩

/-- C9: the line intersection substitutes divisor 1 when the determinant of
the two blended lines is exactly zero, so it always returns a defined
coordinate pair, and consequently `xy2latlon` on a record with 4 geo corners
and positive image dimensions always returns a defined pair. -/
theorem c9_no_division_failure :
    (∀ x1 y1 x2 y2 x3 y3 x4 y4 : ℚ,
      ∃ p, _intersect_lines x1 y1 x2 y2 x3 y3 x4 y4 = .ok p) ∧
    (∀ x1 y1 x2 y2 x3 y3 x4 y4 : ℚ,
      _det (x1 - x2) (y1 - y2) (x3 - x4) (y3 - y4) = 0 →
      _intersect_lines x1 y1 x2 y2 x3 y3 x4 y4 =
        .ok (_det (_det x1 y1 x2 y2) (x1 - x2) (_det x3 y3 x4 y4) (x3 - x4) / 1,
             _det (_det x1 y1 x2 y2) (y1 - y2) (_det x3 y3 x4 y4) (y3 - y4) / 1)) ∧
    (∀ (m : MapFile) (c0 c1 c2 c3 : ℚ × ℚ) (sx sy : ℤ) (x y : ℚ),
      m.mmpll = [c0, c1, c2, c3] → m.image_width = some sx →
      m.image_height = some sy → 0 < sx → 0 < sy →
      ∃ p, m.xy2latlon x y = .ok (some p)) := by
  refine ⟨intersect_lines_total, fun x1 y1 x2 y2 x3 y3 x4 y4 hd => ?_, ?_⟩
  · simp [_intersect_lines, pydiv, hd, Bind.bind, Except.bind, pure, Except.pure]
  · intro m c0 c1 c2 c3 sx sy x y hm hW hH hsx hsy
    have hsx' : (sx : ℚ) ≠ 0 := Int.cast_ne_zero.mpr hsx.ne'
    have hsy' : (sy : ℚ) ≠ 0 := Int.cast_ne_zero.mpr hsy.ne'
    unfold MapFile.xy2latlon
    rw [hm, hW, hH]
    simp only [reduceCtorEq, if_neg, pyAt, List.get?, Bind.bind, Except.bind]
    unfold _map_xy_lonlat
    simp only [pydiv, hsx', hsy', Bind.bind, Except.bind, ite_false, if_false]
    obtain ⟨p, hp⟩ := intersect_lines_total
      ((((sy : ℚ) - y) * c0.1 + y * c3.1) / (sy : ℚ))
      ((((sy : ℚ) - y) * c0.2 + y * c3.2) / (sy : ℚ))
      ((((sy : ℚ) - y) * c1.1 + y * c2.1) / (sy : ℚ))
      ((((sy : ℚ) - y) * c1.2 + y * c2.2) / (sy : ℚ))
      ((((sx : ℚ) - x) * c0.1 + x * c1.1) / (sx : ℚ))
      ((((sx : ℚ) - x) * c0.2 + x * c1.2) / (sx : ℚ))
      ((((sx : ℚ) - x) * c3.1 + x * c2.1) / (sx : ℚ))
      ((((sx : ℚ) - x) * c3.2 + x * c2.2) / (sx : ℚ))
    rw [hp]
    exact ⟨p, rfl⟩

/-- C9 witness: the totality statement instantiated on a concrete calibrated
record and query point. -/
theorem c9_witness :
    ∃ p, ({ mmpll := [(0, 0), (0, 1), (1, 1), (1, 0)], image_width := some 2,
            image_height := some 2 } : MapFile).xy2latlon 5 7 = .ok (some p) :=
  c9_no_division_failure.2.2 _ (0, 0) (0, 1) (1, 1) (1, 0) 2 2 5 7 rfl rfl rfl
    (by decide) (by decide)

/-! ### C3: `xy2latlon` is exact at the four corner pixels -/

/-- If the point `(u, v)` lies on both lines (through `(x1,y1)-(x2,y2)` and
through `(x3,y3)-(x4,y4)`) and the determinant is nonzero, the intersection
formula returns exactly `(u, v)`. -/
theorem intersect_lines_at_point (x1 y1 x2 y2 x3 y3 x4 y4 u v : ℚ)
    (h1 : v * (x1 - x2) - u * (y1 - y2) = x1 * y2 - y1 * x2)
    (h2 : v * (x3 - x4) - u * (y3 - y4) = x3 * y4 - y3 * x4)
    (hd : _det (x1 - x2) (y1 - y2) (x3 - x4) (y3 - y4) ≠ 0) :
    _intersect_lines x1 y1 x2 y2 x3 y3 x4 y4 = .ok (u, v) := by
  unfold _intersect_lines
  simp only [pydiv, hd, ite_false, Bind.bind, Except.bind, pure, Except.pure,
    Except.ok.injEq, Prod.mk.injEq]
  constructor
  · rw [div_eq_iff hd]
    simp only [_det]
    linear_combination (x1 - x2) * h2 - (x3 - x4) * h1
  · rw [div_eq_iff hd]
    simp only [_det]
    linear_combination (y1 - y2) * h2 - (y3 - y4) * h1

theorem map_xy_corner_nw (c0 c1 c2 c3 : ℚ × ℚ) {sx sy : ℚ}
    (hsx : sx ≠ 0) (hsy : sy ≠ 0) :
    _map_xy_lonlat c0 c1 c2 c3 sx sy 0 0 =
      _intersect_lines c0.1 c0.2 c1.1 c1.2 c0.1 c0.2 c3.1 c3.2 := by
  unfold _map_xy_lonlat
  simp only [pydiv, hsx, hsy, ite_false, Bind.bind, Except.bind, sub_zero,
    zero_mul, mul_zero, add_zero, zero_add, sub_self,
    mul_div_cancel_left₀ _ hsx, mul_div_cancel_left₀ _ hsy]

theorem map_xy_corner_ne (c0 c1 c2 c3 : ℚ × ℚ) {sx sy : ℚ}
    (hsx : sx ≠ 0) (hsy : sy ≠ 0) :
    _map_xy_lonlat c0 c1 c2 c3 sx sy sx 0 =
      _intersect_lines c0.1 c0.2 c1.1 c1.2 c1.1 c1.2 c2.1 c2.2 := by
  unfold _map_xy_lonlat
  simp only [pydiv, hsx, hsy, ite_false, Bind.bind, Except.bind, sub_zero,
    zero_mul, mul_zero, add_zero, zero_add, sub_self,
    mul_div_cancel_left₀ _ hsx, mul_div_cancel_left₀ _ hsy]

theorem map_xy_corner_se (c0 c1 c2 c3 : ℚ × ℚ) {sx sy : ℚ}
    (hsx : sx ≠ 0) (hsy : sy ≠ 0) :
    _map_xy_lonlat c0 c1 c2 c3 sx sy sx sy =
      _intersect_lines c3.1 c3.2 c2.1 c2.2 c1.1 c1.2 c2.1 c2.2 := by
  unfold _map_xy_lonlat
  simp only [pydiv, hsx, hsy, ite_false, Bind.bind, Except.bind, sub_zero,
    zero_mul, mul_zero, add_zero, zero_add, sub_self,
    mul_div_cancel_left₀ _ hsx, mul_div_cancel_left₀ _ hsy]

theorem map_xy_corner_sw (c0 c1 c2 c3 : ℚ × ℚ) {sx sy : ℚ}
    (hsx : sx ≠ 0) (hsy : sy ≠ 0) :
    _map_xy_lonlat c0 c1 c2 c3 sx sy 0 sy =
      _intersect_lines c3.1 c3.2 c2.1 c2.2 c0.1 c0.2 c3.1 c3.2 := by
  unfold _map_xy_lonlat
  simp only [pydiv, hsx, hsy, ite_false, Bind.bind, Except.bind, sub_zero,
    zero_mul, mul_zero, add_zero, zero_add, sub_self,
    mul_div_cancel_left₀ _ hsx, mul_div_cancel_left₀ _ hsy]

/-- C3: with `mmpll` holding exactly 4 corners in NW, NE, SE, SW order,
positive image dimensions, and the blended lines non-parallel at each corner
query (the four determinant hypotheses), `xy2latlon` is exact at the four
corner pixels: `(0,0)`, `(w,0)`, `(w,h)`, `(0,h)` map to `mmpll[0..3]`
respectively. -/
theorem c3_corner_exact (m : MapFile) (c0 c1 c2 c3 : ℚ × ℚ) (sx sy : ℤ)
    (hm : m.mmpll = [c0, c1, c2, c3]) (hW : m.image_width = some sx)
    (hH : m.image_height = some sy) (hsx : 0 < sx) (hsy : 0 < sy)
    (hd1 : _det (c0.1 - c1.1) (c0.2 - c1.2) (c0.1 - c3.1) (c0.2 - c3.2) ≠ 0)
    (hd2 : _det (c0.1 - c1.1) (c0.2 - c1.2) (c1.1 - c2.1) (c1.2 - c2.2) ≠ 0)
    (hd3 : _det (c3.1 - c2.1) (c3.2 - c2.2) (c1.1 - c2.1) (c1.2 - c2.2) ≠ 0)
    (hd4 : _det (c3.1 - c2.1) (c3.2 - c2.2) (c0.1 - c3.1) (c0.2 - c3.2) ≠ 0) :
    m.xy2latlon 0 0 = .ok (some c0) ∧
    m.xy2latlon (sx : ℚ) 0 = .ok (some c1) ∧
    m.xy2latlon (sx : ℚ) (sy : ℚ) = .ok (some c2) ∧
    m.xy2latlon 0 (sy : ℚ) = .ok (some c3) := by
  have hsx' : (sx : ℚ) ≠ 0 := Int.cast_ne_zero.mpr hsx.ne'
  have hsy' : (sy : ℚ) ≠ 0 := Int.cast_ne_zero.mpr hsy.ne'
  refine ⟨?_, ?_, ?_, ?_⟩ <;>
    (unfold MapFile.xy2latlon
     rw [hm, hW, hH]
     simp only [reduceCtorEq, ite_false, pyAt, List.get?, Bind.bind, Except.bind])
  · rw [map_xy_corner_nw c0 c1 c2 c3 hsx' hsy',
      intersect_lines_at_point _ _ _ _ _ _ _ _ c0.1 c0.2 (by ring) (by ring) hd1]
    simp [pure, Except.pure]
  · rw [map_xy_corner_ne c0 c1 c2 c3 hsx' hsy',
      intersect_lines_at_point _ _ _ _ _ _ _ _ c1.1 c1.2 (by ring) (by ring) hd2]
    simp [pure, Except.pure]
  · rw [map_xy_corner_se c0 c1 c2 c3 hsx' hsy',
      intersect_lines_at_point _ _ _ _ _ _ _ _ c2.1 c2.2 (by ring) (by ring) hd3]
    simp [pure, Except.pure]
  · rw [map_xy_corner_sw c0 c1 c2 c3 hsx' hsy',
      intersect_lines_at_point _ _ _ _ _ _ _ _ c3.1 c3.2 (by ring) (by ring) hd4]
    simp [pure, Except.pure]

theorem c3d1 : _det ((10 : ℚ) - 10) (20 - 21) (10 - 9) (20 - 20) ≠ 0 := by
  norm_num [_det]

theorem c3d2 : _det ((10 : ℚ) - 10) (20 - 21) (10 - 9) (21 - 21) ≠ 0 := by
  norm_num [_det]

theorem c3d3 : _det ((9 : ℚ) - 9) (20 - 21) (10 - 9) (21 - 21) ≠ 0 := by
  norm_num [_det]

theorem c3d4 : _det ((9 : ℚ) - 9) (20 - 21) (10 - 9) (20 - 20) ≠ 0 := by
  norm_num [_det]

/-- C3 witness: the corner-exactness theorem instantiated on the spec's
example calibration. -/
theorem c3_witness :
    ({ mmpll := [(10, 20), (10, 21), (9, 21), (9, 20)], image_width := some 1000,
       image_height := some 800 } : MapFile).xy2latlon 0 0 = .ok (some (10, 20)) ∧
    ({ mmpll := [(10, 20), (10, 21), (9, 21), (9, 20)], image_width := some 1000,
       image_height := some 800 } : MapFile).xy2latlon 1000 0 = .ok (some (10, 21)) ∧
    ({ mmpll := [(10, 20), (10, 21), (9, 21), (9, 20)], image_width := some 1000,
       image_height := some 800 } : MapFile).xy2latlon 1000 800 = .ok (some (9, 21)) ∧
    ({ mmpll := [(10, 20), (10, 21), (9, 21), (9, 20)], image_width := some 1000,
       image_height := some 800 } : MapFile).xy2latlon 0 800 = .ok (some (9, 20)) :=
  c3_corner_exact _ (10, 20) (10, 21) (9, 21) (9, 20) 1000 800 rfl rfl rfl
    (by decide) (by decide) c3d1 c3d2 c3d3 c3d4

/-! ### Corner selection: the head of a stable sort is the first minimum -/

/-- The element a stable sort by `key` puts first: the earliest element of
the list attaining the minimal key. -/
def selMin (key : Point → ℚ) : List Point → Option Point
  | [] => none
  | a :: l =>
    some (match selMin key l with
          | none => a
          | some q => if key a ≤ key q then a else q)

theorem insertK_head (key : Point → ℚ) (a : Point) (l : List Point) :
    (insertK key a l).head? =
      some (match l.head? with
            | none => a
            | some b => if key a ≤ key b then a else b) := by
  cases l with
  | nil => rfl
  | cons b bs =>
    by_cases hk : key a ≤ key b
    · simp [insertK, hk]
    · simp [insertK, hk]

theorem sortK_head (key : Point → ℚ) (l : List Point) :
    (sortK key l).head? = selMin key l := by
  induction l with
  | nil => rfl
  | cons a as ih =>
    show (insertK key a (sortK key as)).head? = _
    rw [insertK_head, ih]
    rfl

theorem selMin_mem (key : Point → ℚ) :
    ∀ (l : List Point) (a : Point), selMin key l = some a → a ∈ l := by
  intro l
  induction l with
  | nil => intro a h; simp [selMin] at h
  | cons x xs ih =>
    intro a h
    unfold selMin at h
    cases hs : selMin key xs with
    | none =>
      rw [hs] at h
      simp only [Option.some.injEq] at h
      subst h
      exact List.mem_cons_self _ _
    | some q =>
      rw [hs] at h
      simp only [Option.some.injEq] at h
      by_cases hk : key x ≤ key q
      · rw [if_pos hk] at h
        subst h
        exact List.mem_cons_self _ _
      · rw [if_neg hk] at h
        subst h
        exact List.mem_cons_of_mem _ (ih _ hs)

/-- When `a` strictly minimizes the key among all other elements, the stable
sort puts `a` first. -/
theorem selMin_eq_of_strict (key : Point → ℚ) :
    ∀ (l : List Point) (a : Point), a ∈ l →
      (∀ b ∈ l, b ≠ a → key a < key b) → selMin key l = some a := by
  intro l
  induction l with
  | nil => intro a ha; cases ha
  | cons x xs ih =>
    intro a ha hstrict
    by_cases hxa : x = a
    · subst hxa
      cases hs : selMin key xs with
      | none => simp [selMin, hs]
      | some q =>
        have hq : q ∈ xs := selMin_mem key xs q hs
        by_cases hqa : q = x
        · subst hqa
          simp [selMin, hs]
        · have hlt := hstrict q (List.mem_cons_of_mem _ hq) hqa
          simp [selMin, hs, le_of_lt hlt]
    · have haxs : a ∈ xs := by
        rcases List.mem_cons.mp ha with h | h
        · exact absurd h.symm hxa
        · exact h
      have hrec : selMin key xs = some a :=
        ih a haxs (fun b hb hba => hstrict b (List.mem_cons_of_mem _ hb) hba)
      have hxlt : key a < key x := hstrict x (List.mem_cons_self _ _) hxa
      simp [selMin, hrec, not_le.mpr hxlt]

/-- The stable-sort head is the first element in input order attaining the
minimal key: the list splits as `l₁ ++ a :: l₂` with every element of `l₁`
strictly worse and every element of the list at least as large. -/
theorem selMin_firstMin (key : Point → ℚ) :
    ∀ l : List Point, l ≠ [] →
      ∃ a l₁ l₂, selMin key l = some a ∧ l = l₁ ++ a :: l₂ ∧
        (∀ b ∈ l, key a ≤ key b) ∧ (∀ b ∈ l₁, key a < key b) := by
  intro l
  induction l with
  | nil => intro h; exact absurd rfl h
  | cons x xs ih =>
    intro _
    cases hs : selMin key xs with
    | none =>
      have hxs : xs = [] := by
        cases xs with
        | nil => rfl
        | cons y ys => simp [selMin] at hs
      subst hxs
      exact ⟨x, [], [], by simp [selMin], rfl, by simp, by simp⟩
    | some q =>
      have hxs : xs ≠ [] := by
        intro h
        subst h
        simp [selMin] at hs
      obtain ⟨a, l₁, l₂, ha, hsplit, hmin, hstrict⟩ := ih hxs
      rw [ha] at hs
      injection hs with hs
      subst hs
      by_cases hk : key x ≤ key a
      · refine ⟨x, [], xs, by simp [selMin, ha, hk], rfl, ?_, by simp⟩
        intro b hb
        rcases List.mem_cons.mp hb with rfl | hbxs
        · exact le_refl _
        · exact le_trans hk (hmin b hbxs)
      · refine ⟨a, x :: l₁, l₂, by simp [selMin, ha, hk], by rw [hsplit]; rfl, ?_, ?_⟩
        · intro b hb
          rcases List.mem_cons.mp hb with rfl | hbxs
          · exact le_of_lt (not_le.mp hk)
          · exact hmin b hbxs
        · intro b hb
          rcases List.mem_cons.mp hb with rfl | hbl
          · exact not_le.mp hk
          · exact hstrict b hbl

/-! ### C8: corner assignment in `_sort_points` -/

/-- Genuine Euclidean pixel distance from a point to `(cx, cy)`: the square
root the source applies to `dist_from_sq` via `math.sqrt`. -/
noncomputable def eucl (p : Point) (cx cy : ℚ) : ℝ :=
  Real.sqrt ((dist_from_sq p cx cy : ℚ) : ℝ)

theorem eucl_le_of_dist_le {p q : Point} {cx cy : ℚ}
    (h : dist_from_sq p cx cy ≤ dist_from_sq q cx cy) :
    eucl p cx cy ≤ eucl q cx cy :=
  Real.sqrt_le_sqrt (by exact_mod_cast h)

theorem eucl_lt_of_dist_lt {p q : Point} {cx cy : ℚ}
    (h : dist_from_sq p cx cy < dist_from_sq q cx cy) :
    eucl p cx cy < eucl q cx cy := by
  apply Real.sqrt_lt_sqrt
  · have : (0 : ℚ) ≤ dist_from_sq p cx cy := by unfold dist_from_sq; positivity
    exact_mod_cast this
  · exact_mod_cast h

/-- The first-in-input-order Euclidean-minimality property of a selected
corner point: the list splits around `a` with everything before it strictly
farther from the corner and nothing in the list closer. -/
def firstNearest (l : List Point) (cx cy : ℚ) (a : Point) : Prop :=
  ∃ l₁ l₂, l = l₁ ++ a :: l₂ ∧
    (∀ b ∈ l, eucl a cx cy ≤ eucl b cx cy) ∧
    (∀ b ∈ l₁, eucl a cx cy < eucl b cx cy)

theorem firstNearest_of_selMin {l : List Point} {cx cy : ℚ} {a : Point}
    (hsel : selMin (fun p => dist_from_sq p cx cy) l = some a)
    (hne : l ≠ []) : firstNearest l cx cy a := by
  obtain ⟨a', l₁, l₂, ha', hsplit, hmin, hstrict⟩ :=
    selMin_firstMin (fun p => dist_from_sq p cx cy) l hne
  rw [hsel] at ha'
  injection ha' with ha'
  subst ha'
  exact ⟨l₁, l₂, hsplit, fun b hb => eucl_le_of_dist_le (hmin b hb),
    fun b hb => eucl_lt_of_dist_lt (hstrict b hb)⟩

/-- C8 amended claim: for a nonempty points list, `_sort_points` selects for
NW, NE, SE and SW respectively the first point in input order with minimum
Euclidean distance to `(0,0)`, `(width,0)`, `(width,height)` and
`(0,height)` — note SE pairs with `(width,height)` and SW with
`(0,height)`, not the other way around. -/
theorem c8_sort_points_first_nearest (positions : List Point) (width height : ℚ)
    (hne : positions ≠ []) :
    ∃ nw ne se sw, _sort_points positions width height = some (nw, ne, se, sw) ∧
      firstNearest positions 0 0 nw ∧
      firstNearest positions width 0 ne ∧
      firstNearest positions width height se ∧
      firstNearest positions 0 height sw := by
  obtain ⟨a1, h1⟩ : ∃ a, selMin (fun p => dist_from_sq p 0 0) positions = some a := by
    cases positions with
    | nil => exact absurd rfl hne
    | cons x xs => exact ⟨_, rfl⟩
  obtain ⟨a2, h2⟩ : ∃ a, selMin (fun p => dist_from_sq p width 0) positions = some a := by
    cases positions with
    | nil => exact absurd rfl hne
    | cons x xs => exact ⟨_, rfl⟩
  obtain ⟨a3, h3⟩ : ∃ a, selMin (fun p => dist_from_sq p 0 height) positions = some a := by
    cases positions with
    | nil => exact absurd rfl hne
    | cons x xs => exact ⟨_, rfl⟩
  obtain ⟨a4, h4⟩ : ∃ a, selMin (fun p => dist_from_sq p width height) positions = some a := by
    cases positions with
    | nil => exact absurd rfl hne
    | cons x xs => exact ⟨_, rfl⟩
  refine ⟨a1, a2, a4, a3, ?_, ?_, ?_, ?_, ?_⟩
  · unfold _sort_points
    rw [if_neg hne, sortK_head, sortK_head, sortK_head, sortK_head, h1, h2, h3, h4]
  · exact firstNearest_of_selMin h1 hne
  · exact firstNearest_of_selMin h2 hne
  · exact firstNearest_of_selMin h4 hne
  · exact firstNearest_of_selMin h3 hne

/-- The two pixel positions of the C8 counterexample. -/
def c8p0 : Point := { idx := none, x := 0, y := 10, lat := 0, lon := 0 }

/-- See `c8p0`. -/
def c8p1 : Point := { idx := none, x := 10, y := 10, lat := 0, lon := 0 }

/-- C8 counterexample: with width = height = 10, point `c8p0 = (0,10)` is
the unique nearest point to `(0, height)` and `c8p1 = (10,10)` the unique
nearest to `(width, height)`; the claim says the SE slot (third component)
takes the point nearest `(0, height)`, i.e. `c8p0`, but the code returns
`(nw, ne, se, sw) = (c8p0, c8p1, c8p1, c8p0)`: SE is nearest
`(width, height)` and SW nearest `(0, height)`. -/
theorem c8_counterexample :
    _sort_points [c8p0, c8p1] 10 10 = some (c8p0, c8p1, c8p1, c8p0) ∧
    c8p1 ≠ c8p0 := by
  constructor
  · with_unfolding_all rfl
  · decide

/-- C8 witness: the amended selection theorem instantiated on a singleton
list. -/
theorem c8_witness :
    ∃ nw ne se sw, _sort_points [c8p0] 5 5 = some (nw, ne, se, sw) ∧
      firstNearest [c8p0] 0 0 nw ∧
      firstNearest [c8p0] 5 0 ne ∧
      firstNearest [c8p0] 5 5 se ∧
      firstNearest [c8p0] 0 5 sw :=
  c8_sort_points_first_nearest [c8p0] 5 5 (by decide)

/-! ### C4: `calibrate` reproduces a perfect rectilinear grid -/

/-- Corner selection for four points placed exactly at the image pixel
corners: each image corner selects the point sitting on it. -/
theorem sort_points_grid (w h : ℚ) (hw : 0 < w) (hh : 0 < h)
    (p0 p1 p2 p3 : Point)
    (h0 : p0.x = 0) (h0y : p0.y = 0) (h1x : p1.x = w) (h1y : p1.y = 0)
    (h2x : p2.x = 0) (h2y : p2.y = h) (h3x : p3.x = w) (h3y : p3.y = h) :
    _sort_points [p0, p1, p2, p3] w h = some (p0, p1, p3, p2) := by
  have hw2 : (0 : ℚ) < w ^ 2 := pow_pos hw 2
  have hh2 : (0 : ℚ) < h ^ 2 := pow_pos hh 2
  have d00 : dist_from_sq p0 0 0 = 0 := by simp [dist_from_sq, h0, h0y]
  have d01 : dist_from_sq p1 0 0 = w ^ 2 := by simp [dist_from_sq, h1x, h1y]
  have d02 : dist_from_sq p2 0 0 = h ^ 2 := by simp [dist_from_sq, h2x, h2y]
  have d03 : dist_from_sq p3 0 0 = w ^ 2 + h ^ 2 := by simp [dist_from_sq, h3x, h3y]
  have dw0 : dist_from_sq p0 w 0 = w ^ 2 := by
    simp [dist_from_sq, h0, h0y]
  have dw1 : dist_from_sq p1 w 0 = 0 := by simp [dist_from_sq, h1x, h1y]
  have dw2 : dist_from_sq p2 w 0 = w ^ 2 + h ^ 2 := by
    simp [dist_from_sq, h2x, h2y]
  have dw3 : dist_from_sq p3 w 0 = h ^ 2 := by simp [dist_from_sq, h3x, h3y]
  have dh0 : dist_from_sq p0 0 h = h ^ 2 := by simp [dist_from_sq, h0, h0y]
  have dh1 : dist_from_sq p1 0 h = w ^ 2 + h ^ 2 := by
    simp [dist_from_sq, h1x, h1y, add_comm]
  have dh2 : dist_from_sq p2 0 h = 0 := by simp [dist_from_sq, h2x, h2y]
  have dh3 : dist_from_sq p3 0 h = w ^ 2 := by simp [dist_from_sq, h3x, h3y]
  have dwh0 : dist_from_sq p0 w h = w ^ 2 + h ^ 2 := by
    simp [dist_from_sq, h0, h0y]
  have dwh1 : dist_from_sq p1 w h = h ^ 2 := by simp [dist_from_sq, h1x, h1y]
  have dwh2 : dist_from_sq p2 w h = w ^ 2 := by simp [dist_from_sq, h2x, h2y]
  have dwh3 : dist_from_sq p3 w h = 0 := by simp [dist_from_sq, h3x, h3y]
  have sel1 : selMin (fun p => dist_from_sq p 0 0) [p0, p1, p2, p3] = some p0 := by
    apply selMin_eq_of_strict _ _ _ (List.mem_cons_self _ _)
    intro b hb hbne
    simp only [List.mem_cons, List.mem_singleton, List.not_mem_nil, or_false] at hb
    rcases hb with rfl | rfl | rfl | rfl
    · exact absurd rfl hbne
    · rw [d00, d01]; linarith
    · rw [d00, d02]; linarith
    · rw [d00, d03]; linarith
  have sel2 : selMin (fun p => dist_from_sq p w 0) [p0, p1, p2, p3] = some p1 := by
    apply selMin_eq_of_strict _ _ _ (by simp)
    intro b hb hbne
    simp only [List.mem_cons, List.mem_singleton, List.not_mem_nil, or_false] at hb
    rcases hb with rfl | rfl | rfl | rfl
    · rw [dw1, dw0]; linarith
    · exact absurd rfl hbne
    · rw [dw1, dw2]; linarith
    · rw [dw1, dw3]; linarith
  have sel3 : selMin (fun p => dist_from_sq p 0 h) [p0, p1, p2, p3] = some p2 := by
    apply selMin_eq_of_strict _ _ _ (by simp)
    intro b hb hbne
    simp only [List.mem_cons, List.mem_singleton, List.not_mem_nil, or_false] at hb
    rcases hb with rfl | rfl | rfl | rfl
    · rw [dh2, dh0]; linarith
    · rw [dh2, dh1]; linarith
    · exact absurd rfl hbne
    · rw [dh2, dh3]; linarith
  have sel4 : selMin (fun p => dist_from_sq p w h) [p0, p1, p2, p3] = some p3 := by
    apply selMin_eq_of_strict _ _ _ (by simp)
    intro b hb hbne
    simp only [List.mem_cons, List.mem_singleton, List.not_mem_nil, or_false] at hb
    rcases hb with rfl | rfl | rfl | rfl
    · rw [dwh3, dwh0]; linarith
    · rw [dwh3, dwh1]; linarith
    · rw [dwh3, dwh2]; linarith
    · exact absurd rfl hbne
  unfold _sort_points
  rw [if_neg (by simp), sortK_head, sortK_head, sortK_head, sortK_head,
    sel1, sel2, sel3, sel4]

/-- The slope computations of `_calibrate_calculate` on a perfect grid: all
four slopes are zero and the corner geo values are returned unchanged. -/
theorem calibrate_calculate_grid (w h : ℚ) (hw : 0 < w) (hh : 0 < h)
    (i0 i1 i2 i3 : Option ℤ) (lat0 lat2 lon0 lon1 : ℚ) :
    _calibrate_calculate
      [{ idx := i0, x := 0, y := 0, lat := lat0, lon := lon0 },
       { idx := i1, x := w, y := 0, lat := lat0, lon := lon1 },
       { idx := i2, x := 0, y := h, lat := lat2, lon := lon0 },
       { idx := i3, x := w, y := h, lat := lat2, lon := lon1 }] w h =
      .ok ((0, 0, lat0, lon0), (w, 0, lat0, lon1),
           (w, h, lat2, lon1), (0, h, lat2, lon0)) := by
  have hsort := sort_points_grid w h hw hh
    { idx := i0, x := 0, y := 0, lat := lat0, lon := lon0 }
    { idx := i1, x := w, y := 0, lat := lat0, lon := lon1 }
    { idx := i2, x := 0, y := h, lat := lat2, lon := lon0 }
    { idx := i3, x := w, y := h, lat := lat2, lon := lon1 }
    rfl rfl rfl rfl rfl rfl rfl rfl
  unfold _calibrate_calculate
  rw [hsort]
  simp only [pydiv, sub_self, zero_sub, zero_div, neg_eq_zero, hw.ne', hh.ne',
    ite_false, if_false, sub_zero, zero_mul, mul_zero, add_zero, zero_add,
    Bind.bind, Except.bind, pure, Except.pure]

/-- C4: `calibrate` applied to 4 points placed exactly at the image pixel
corners `(0,0) (w,0) (0,h) (w,h)` forming a perfect rectilinear grid
(latitude constant along each corner row, longitude constant along each
corner column) writes exactly those four geo values into `mmpll` (in NW, NE,
SE, SW order) and sets the corner count to 4. -/
theorem c4_calibrate_grid (m : MapFile) (w h : ℤ) (i0 i1 i2 i3 : Option ℤ)
    (lat0 lat1 lat2 lat3 lon0 lon1 lon2 lon3 : ℚ)
    (hw : 0 < w) (hh : 0 < h)
    (hW : m.image_width = some w) (hH : m.image_height = some h)
    (hpts : m.points =
      [{ idx := i0, x := 0, y := 0, lat := lat0, lon := lon0 },
       { idx := i1, x := (w : ℚ), y := 0, lat := lat1, lon := lon1 },
       { idx := i2, x := 0, y := (h : ℚ), lat := lat2, lon := lon2 },
       { idx := i3, x := (w : ℚ), y := (h : ℚ), lat := lat3, lon := lon3 }])
    (hlatN : lat0 = lat1) (hlatS : lat2 = lat3)
    (hlonW : lon0 = lon2) (hlonE : lon1 = lon3) :
    ∃ (m' : MapFile) (s : ℝ), m.calibrate = .ok (m', s) ∧
      m'.mmpll = [(lat0, lon0), (lat1, lon1), (lat3, lon3), (lat2, lon2)] ∧
      m'.mmpnum = some 4 := by
  subst hlatN hlatS hlonW hlonE
  have hwq : (0 : ℚ) < (w : ℚ) := by exact_mod_cast hw
  have hhq : (0 : ℚ) < (h : ℚ) := by exact_mod_cast hh
  have hcal := calibrate_calculate_grid (w : ℚ) (h : ℚ) hwq hhq i0 i1 i2 i3
    lat0 lat2 lon0 lon1
  obtain ⟨fn, imf, imp, proj, mproj, pts, mxy, mll, mnum, mb, iw, ihh⟩ := m
  simp only [MapFile.image_width, MapFile.image_height, MapFile.points]
    at hW hH hpts
  subst hW
  subst hH
  subst hpts
  obtain ⟨s, hs⟩ : ∃ s : ℝ,
      MapFile.calibrate
        { filename := fn, img_filename := imf, img_filepath := imp,
          projection := proj, map_projection := mproj,
          points :=
            [{ idx := i0, x := 0, y := 0, lat := lat0, lon := lon0 },
             { idx := i1, x := (w : ℚ), y := 0, lat := lat0, lon := lon1 },
             { idx := i2, x := 0, y := (h : ℚ), lat := lat2, lon := lon0 },
             { idx := i3, x := (w : ℚ), y := (h : ℚ), lat := lat2, lon := lon1 }],
          mmpxy := mxy, mmpll := mll, mmpnum := mnum, mm1b := mb,
          image_width := some w, image_height := some h } =
      .ok ({ filename := fn, img_filename := imf, img_filepath := imp,
             projection := proj, map_projection := mproj,
             points :=
               [{ idx := i0, x := 0, y := 0, lat := lat0, lon := lon0 },
                { idx := i1, x := (w : ℚ), y := 0, lat := lat0, lon := lon1 },
                { idx := i2, x := 0, y := (h : ℚ), lat := lat2, lon := lon0 },
                { idx := i3, x := (w : ℚ), y := (h : ℚ), lat := lat2, lon := lon1 }],
             mmpxy := [(0, 0), (w, 0), (w, h), (0, h)],
             mmpll := [(lat0, lon0), (lat0, lon1), (lat2, lon1), (lat2, lon0)],
             mmpnum := some 4, mm1b := mb,
             image_width := some w, image_height := some h }, s) := by
    unfold MapFile.calibrate
    dsimp only
    rw [hcal]
    dsimp only [Bind.bind, Except.bind]
    rw [if_neg hw.ne']
    exact ⟨_, rfl⟩
  exact ⟨_, s, hs, rfl, rfl⟩

/-- C4 witness: a concrete 2×3 image with a rectilinear grid of corner
points. -/
theorem c4_witness :
    ∃ (m' : MapFile) (s : ℝ),
      ({ image_width := some 2, image_height := some 3,
         points :=
           [{ idx := none, x := 0, y := 0, lat := 1, lon := 5 },
            { idx := none, x := ((2 : ℤ) : ℚ), y := 0, lat := 1, lon := 6 },
            { idx := none, x := 0, y := ((3 : ℤ) : ℚ), lat := 0, lon := 5 },
            { idx := none, x := ((2 : ℤ) : ℚ), y := ((3 : ℤ) : ℚ), lat := 0,
              lon := 6 }] } : MapFile).calibrate = .ok (m', s) ∧
      m'.mmpll = [(1, 5), (1, 6), (0, 6), (0, 5)] ∧
      m'.mmpnum = some 4 :=
  c4_calibrate_grid _ 2 3 none none none none 1 1 0 0 5 6 5 6
    (by decide) (by decide) rfl rfl rfl rfl rfl rfl rfl

end Tbviewer
